import Mathlib

/-!
Verification development for the `blender_render` pipeline orchestration core.

The definitions below are shallow embeddings of the Python source:

* `src/core/blender_engine_original.py`  (class `BlenderRenderEngine`)
* `src/core/blender_engine_fixed_part2.py`  (continuation of the same class,
  a variant of `_monitor_progress` / `cancel_render`)
* `src/core/cuda_accelerator.py`  (class `CUDAAccelerator`)
* `src/core/settings_manager.py`  (`validate_settings`, frame-range part)
* `src/main.py`  (`run_render_pipeline` and the stage functions it calls)

Machine integers are modelled as `Int`/`Nat` (Python integers are unbounded),
Python floats as `Rat` (the formulas involved are exact rational arithmetic),
subprocess interaction as explicit parameters (exit code, the line stream of
the child process), and the monitor thread as a fold over the list of lines
read from the child's stdout.
-/

namespace BlenderRender

/-! ### Stream progress parser

`_monitor_progress` matches each (stripped) output line against the ordered
pattern list `["Fra:(\d+)", "Saved: '.*render_(\d+)\..*'",
"Rendering (\d+) / (\d+)", "Frame (\d+)"]` with `re.search`, first match wins.
The helpers below model `re.search` for these concrete patterns on the list
of characters of the line. -/

/-- Python's builtin `min` on two floats, modelled on `ℚ`:
`a if a <= b else b`. -/
def pymin (a b : ℚ) : ℚ := if a ≤ b then a else b

/-- Python's builtin `max` on two floats, modelled on `ℚ`:
`a if a >= b else b`. -/
def pymax (a b : ℚ) : ℚ := if b ≤ a then a else b

/-- `listStartsWith key cs` is true iff `key` is an initial segment of `cs`. -/
def listStartsWith : List Char → List Char → Bool
  | [], _ => true
  | _ :: _, [] => false
  | k :: ks, c :: cs => k == c && listStartsWith ks cs

/-- Python's `needle in line` substring test. -/
def containsSub (needle : List Char) : List Char → Bool
  | [] => listStartsWith needle []
  | c :: cs => listStartsWith needle (c :: cs) || containsSub needle cs

/-- `int(...)` applied to a captured run of decimal digits. -/
def digitsToNat (ds : List Char) : ℕ :=
  ds.foldl (fun a c => a * 10 + (c.toNat - '0'.toNat)) 0

/-- `re.search(key + "(\d+)", line)`: the leftmost occurrence of the literal
`key` that is immediately followed by at least one digit; the capture group is
the maximal digit run (used for the `"Fra:(\d+)"` and `"Frame (\d+)"`
patterns). -/
def matchKeyNum (key : List Char) : List Char → Option ℕ
  | [] => none
  | c :: cs =>
    if listStartsWith key (c :: cs) then
      let ds := ((c :: cs).drop key.length).takeWhile Char.isDigit
      if ds.isEmpty then matchKeyNum key cs else some (digitsToNat ds)
    else matchKeyNum key cs

/-- One anchored attempt of `"Rendering (\d+) / (\d+)"` at the start of `l`. -/
def tryRenderingAt (l : List Char) : Option ℕ :=
  if listStartsWith "Rendering ".toList l then
    let r1 := l.drop 10
    let ds1 := r1.takeWhile Char.isDigit
    if ds1.isEmpty then none
    else
      let r2 := r1.drop ds1.length
      if listStartsWith " / ".toList r2 then
        let ds2 := (r2.drop 3).takeWhile Char.isDigit
        if ds2.isEmpty then none else some (digitsToNat ds1)
      else none
  else none

/-- `re.search("Rendering (\d+) / (\d+)", line)`, group 1. -/
def matchRenderingNum : List Char → Option ℕ
  | [] => none
  | c :: cs =>
    match tryRenderingAt (c :: cs) with
    | some n => some n
    | none => matchRenderingNum cs

/-- The part of `"Saved: '.*render_(\d+)\..*'"` after the literal
`"Saved: '"`: the greedy `.*` selects the rightmost `render_<digits>.`
occurrence that is still followed by a closing quote somewhere. -/
def savedInner : List Char → Option ℕ
  | [] => none
  | c :: cs =>
    match savedInner cs with
    | some n => some n
    | none =>
      if listStartsWith "render_".toList (c :: cs) then
        let r := (c :: cs).drop 7
        let ds := r.takeWhile Char.isDigit
        if ds.isEmpty then none
        else
          match r.drop ds.length with
          | '.' :: rest => if rest.contains '\'' then some (digitsToNat ds) else none
          | _ => none
      else none

/-- `re.search("Saved: '.*render_(\d+)\..*'", line)`, group 1: leftmost
occurrence of `"Saved: '"` whose tail completes the pattern. -/
def matchSavedNum : List Char → Option ℕ
  | [] => none
  | c :: cs =>
    if listStartsWith "Saved: '".toList (c :: cs) then
      match savedInner ((c :: cs).drop 8) with
      | some n => some n
      | none => matchSavedNum cs
    else matchSavedNum cs

/-- The frame-number extraction loop of `_monitor_progress`: the ordered
pattern list is tried with `re.search` and the first match wins. -/
def parseFrame (line : String) : Option ℕ :=
  match matchKeyNum "Fra:".toList line.toList with
  | some n => some n
  | none =>
    match matchSavedNum line.toList with
    | some n => some n
    | none =>
      match matchRenderingNum line.toList with
      | some n => some n
      | none => matchKeyNum "Frame ".toList line.toList

/-- `'ERROR' in line or 'Error' in line` (case-sensitive substrings). -/
def isErrorLine (line : String) : Bool :=
  containsSub "ERROR".toList line.toList || containsSub "Error".toList line.toList

/-- `'WARNING' in line or 'Warning' in line` (case-sensitive substrings). -/
def isWarningLine (line : String) : Bool :=
  containsSub "WARNING".toList line.toList || containsSub "Warning".toList line.toList

/-! ### Monitor state

The mutable state of one `_monitor_progress` run: the local `last_frame`, the
fields of `self.stats` it touches, and the list of percentages passed to
`self._update_progress` (in order). -/

structure MonState where
  lastFrame : ℕ
  framesRendered : ℤ
  errors : List String
  warnings : List String
  emitted : List ℚ
  deriving Repr, DecidableEq

/-- State at thread start: `last_frame = 0` and the freshly reset stats. -/
def monInit : MonState :=
  { lastFrame := 0, framesRendered := 0, errors := [], warnings := [], emitted := [] }

/-- One iteration of `_monitor_progress` in `blender_engine_original.py` on a
stripped line.  The guard is `current_frame >= last_frame`, the update is
`frames_rendered = max(frames_rendered, frame_offset)`.  `frame_offset` is
`current_frame - self.stats.get('frame_start', 1) + 1`; the stats dict set up
by `render` has no `'frame_start'` key, so the default `1` is always used.
If `total_frames > 0` the progress `min(frames_rendered / total_frames * 100,
99.0)` is reported. -/
def frameUpdateOrig (total : ℤ) (st : MonState) (line : String) : MonState :=
  match parseFrame line with
  | some f =>
    if st.lastFrame ≤ f then
      let fr := max st.framesRendered ((f : ℤ) - 1 + 1)
      { st with
        lastFrame := f
        framesRendered := fr
        emitted :=
          if 0 < total then
            st.emitted ++ [pymin ((fr : ℚ) / (total : ℚ) * 100) 99]
          else st.emitted }
    else st
  | none => st

/-- The error/warning recording block shared verbatim by both
`_monitor_progress` variants: an `if`/`elif` pair, so a line carrying an
error marker is never also appended to the warning log. -/
def logUpdate (st : MonState) (line : String) : MonState :=
  if isErrorLine line then { st with errors := st.errors ++ [line] }
  else if isWarningLine line then { st with warnings := st.warnings ++ [line] }
  else st

/-- One iteration of the `_monitor_progress` loop of
`blender_engine_original.py`: frame handling, then error/warning recording. -/
def stepOrig (total : ℤ) (st : MonState) (line : String) : MonState :=
  logUpdate (frameUpdateOrig total st line) line

/-- Frame handling of `_monitor_progress` in `blender_engine_fixed_part2.py`:
the guard is strict (`current_frame > last_frame`) and `frames_rendered` is
assigned `current_frame - self.stats.get('frame_start', 1) + 1` directly
(again with the always-default `frame_start = 1`); progress reporting is as
in the original (the extra tile-progress match only logs). -/
def frameUpdateFixed (total : ℤ) (st : MonState) (line : String) : MonState :=
  match parseFrame line with
  | some f =>
    if st.lastFrame < f then
      let fr : ℤ := (f : ℤ) - 1 + 1
      { st with
        lastFrame := f
        framesRendered := fr
        emitted :=
          if 0 < total then
            st.emitted ++ [pymin ((fr : ℚ) / (total : ℚ) * 100) 99]
          else st.emitted }
    else st
  | none => st

/-- One iteration of the `_monitor_progress` loop of
`blender_engine_fixed_part2.py`: frame handling, then error/warning
recording. -/
def stepFixed (total : ℤ) (st : MonState) (line : String) : MonState :=
  logUpdate (frameUpdateFixed total st line) line

/-- The whole monitor loop of the original engine over the child's line
stream. -/
def monitorOrig (total : ℤ) (lines : List String) : MonState :=
  lines.foldl (stepOrig total) monInit

/-- The whole monitor loop of the fixed-part2 variant over the line stream. -/
def monitorFixed (total : ℤ) (lines : List String) : MonState :=
  lines.foldl (stepFixed total) monInit

/-- `frames_rendered` after every prefix of the line stream (original). -/
def framesTraceOrig (total : ℤ) (lines : List String) : List ℤ :=
  (lines.scanl (stepOrig total) monInit).map (·.framesRendered)

/-- `frames_rendered` after every prefix of the line stream (fixed part 2). -/
def framesTraceFixed (total : ℤ) (lines : List String) : List ℤ :=
  (lines.scanl (stepFixed total) monInit).map (·.framesRendered)

/-! ### Stage executor: `BlenderRenderEngine.render` / `cancel_render`

`render` launches Blender, lets the monitor thread drain its output, then
waits for the exit code and reports the outcome; its state and the
subprocess's behaviour are explicit parameters here. -/

/-- The fields of `self.stats` relevant to the exit decision. -/
structure RenderStats where
  frames_rendered : ℤ
  total_frames : ℤ
  errors : List String
  warnings : List String
  deriving Repr, DecidableEq

/-- `self.stats` right after the reset performed by `render` (total frames
computed from the frame range). -/
def initStats (total : ℤ) : RenderStats :=
  { frames_rendered := 0, total_frames := total, errors := [], warnings := [] }

/-- The engine state visible to `render`'s entry guard. -/
structure EngineState where
  is_running : Bool
  stats : RenderStats
  deriving Repr, DecidableEq

/-- What one call to `BlenderRenderEngine.render` returns and leaves behind:
the final engine state (the `finally` block clears `is_running`), the boolean
result, whether a Blender child process was started at all, and the progress
value passed to `_update_progress` after the process exited (only `100.0` on
exit code 0; the rejection and failure paths report nothing there). -/
structure RenderReturn where
  state : EngineState
  result : Bool
  processStarted : Bool
  finalProgress : Option ℚ
  deriving Repr, DecidableEq

/-- The early-rejection guard of `render` (`blender_engine_original.py`,
lines 210–216): an already-running engine and a missing blend file are
rejected with a logged error message, before any process is started. -/
def render_entry_guard (isRunning : Bool) (blendExists : Bool)
    (blendFile : String) : Option String :=
  if isRunning then some "エラー: 既にレンダリングが実行中です"
  else if !blendExists then
    some ("エラー: Blendファイルが見つかりません: " ++ blendFile)
  else none

/-- One call to `BlenderRenderEngine.render` (both the original and the
fixed-part2 tail behave identically here).  `rc` is the child's exit code
(`self.process.wait()`), `monStats` the stats as left by the monitor thread.
On the launched path the stats are reset, the process runs, and the result is
`return_code == 0` — the frame counters in `monStats` are not consulted and
nothing is appended to the error log at exit. -/
def render (st : EngineState) (blendExists : Bool) (rc : ℤ)
    (monStats : RenderStats) : RenderReturn :=
  if st.is_running then
    { state := st, result := false, processStarted := false, finalProgress := none }
  else if !blendExists then
    { state := st, result := false, processStarted := false, finalProgress := none }
  else if rc = 0 then
    { state := { is_running := false, stats := monStats }
      result := true, processStarted := true, finalProgress := some 100 }
  else
    { state := { is_running := false, stats := monStats }
      result := false, processStarted := true, finalProgress := none }

/-- The grace period (seconds) `cancel_render` passes to
`self.process.wait(timeout=10)`. -/
def cancelGraceSeconds : ℕ := 10

/-- Observable behaviour of one `cancel_render` call. -/
structure CancelResult where
  terminateCalled : Bool
  graceSeconds : ℕ
  killCalled : Bool
  returnedTrue : Bool
  isRunningAfter : Bool
  deriving Repr, DecidableEq

/-- `BlenderRenderEngine.cancel_render` (identical in both engine variants):
no-op returning `False` unless a render is running with a live process;
otherwise `terminate()`, then `wait(timeout=10)`, then `kill()` only if the
process did not exit within the grace period; clears `is_running` and returns
`True`. `exitsWithinGrace` tells whether the child exited inside the 10 s
window. -/
def cancel_render (isRunning hasProcess exitsWithinGrace : Bool) : CancelResult :=
  if !isRunning || !hasProcess then
    { terminateCalled := false, graceSeconds := 0, killCalled := false
      returnedTrue := false, isRunningAfter := isRunning }
  else
    { terminateCalled := true, graceSeconds := cancelGraceSeconds
      killCalled := !exitsWithinGrace, returnedTrue := true
      isRunningAfter := false }

/-! ### Device selector and batch size (`cuda_accelerator.py`) -/

/-- A discovered GPU device as stored in `CUDAAccelerator.devices` (the fields
the scoring and batch-size code reads). -/
structure GpuDevice where
  id : ℤ
  memory_total : ℚ
  memory_used : ℚ
  memory_free : ℚ
  temperature : Option ℚ
  utilization : Option ℚ

/-- The per-device score computed by `get_best_device`:
`memory_score * 0.6 + temp_score * 0.2 + util_score * 0.2` with
`memory_score = (1 - memory_used/memory_total) * 100`,
`temp_score = max(0, (85 - temperature)/85 * 100)` when temperature is known
(else 0) and `util_score = 100 - utilization` when utilization is known
(else 0). -/
def device_score (d : GpuDevice) : ℚ :=
  let memory_usage_ratio := d.memory_used / d.memory_total
  let memory_score := (1 - memory_usage_ratio) * 100
  let temp_score :=
    match d.temperature with
    | some t => pymax 0 ((85 - t) / 85 * 100)
    | none => 0
  let util_score :=
    match d.utilization with
    | some u => 100 - u
    | none => 0
  memory_score * 0.6 + temp_score * 0.2 + util_score * 0.2

/-- One iteration of the selection loop in `get_best_device`: the accumulator
is `(best_device, best_score)`, with `best_score = float('-inf')` modelled as
`none` (every finite score beats it); a device replaces the best only when its
score is strictly greater. -/
def select_step (acc : ℤ × Option ℚ) (d : GpuDevice) : ℤ × Option ℚ :=
  match acc.2 with
  | none => (d.id, some (device_score d))
  | some s => if s < device_score d then (d.id, some (device_score d)) else acc

/-- `CUDAAccelerator.get_best_device`: `-1` (the CPU / no-device sentinel)
when CUDA is unavailable or no device was discovered, else the id of the
device selected by the scoring loop started at `(0, -inf)`. -/
def get_best_device (cudaAvailable : Bool) (devices : List GpuDevice) : ℤ :=
  if !cudaAvailable || devices.isEmpty then -1
  else (devices.foldl select_step (0, none)).1

/-- Python list indexing `l[i]`, including negative indices from the end;
`none` is an `IndexError`. -/
def pyGet (l : List GpuDevice) (i : ℤ) : Option GpuDevice :=
  if 0 ≤ i then l.get? i.toNat
  else if 0 ≤ (l.length : ℤ) + i then l.get? ((l.length : ℤ) + i).toNat
  else none

/-- `CUDAAccelerator.get_optimal_batch_size`: returns `base_batch_size`
unchanged when CUDA is unavailable or `target_device >= len(self.devices)`;
otherwise reads the target device (Python indexing), computes
`available = memory_free * memory_threshold` and
`max_batch = int(available // memory_per_item)` and returns
`max(1, min(base_batch_size, max_batch))`.  `none` models an uncaught
`IndexError` (a negative target below `-len(devices)`). -/
def get_optimal_batch_size (cudaAvailable : Bool) (devices : List GpuDevice)
    (current_device : ℤ) (memory_threshold : ℚ)
    (base_batch_size : ℤ) (memory_per_item : ℚ)
    (device_id : Option ℤ) : Option ℤ :=
  if !cudaAvailable then some base_batch_size
  else
    let target := device_id.getD current_device
    if (devices.length : ℤ) ≤ target then some base_batch_size
    else
      match pyGet devices target with
      | none => none
      | some device =>
        let available := device.memory_free * memory_threshold
        let max_batch : ℤ := ⌊available / memory_per_item⌋
        some (max 1 (min base_batch_size max_batch))

/-- Example device A of the spec's testable-properties section: 90% of its
memory free, 40 °C, 10% utilization. -/
def devA : GpuDevice :=
  { id := 0, memory_total := 100, memory_used := 10, memory_free := 90,
    temperature := some 40, utilization := some 10 }

/-- Example device B of the spec's testable-properties section: 30% of its
memory free, 80 °C, 90% utilization. -/
def devB : GpuDevice :=
  { id := 1, memory_total := 100, memory_used := 70, memory_free := 30,
    temperature := some 80, utilization := some 90 }

/-! ### Pipeline (`src/main.py`) and frame-range validation
(`src/core/settings_manager.py`) -/

/-- The stages `run_render_pipeline` can execute, in source order. -/
inductive PipelineStep
  | rendering
  | denoising
  | upscaling
  | interpolating
  | encoding
  deriving Repr, DecidableEq

/-- The parameters `run_render_pipeline` pulls out of the request settings
(with their source defaults). -/
structure PipelineSettings where
  frameStart : ℤ := 1
  frameEnd : ℤ := 250
  enableUpscale : Bool := false
  enableInterpolation : Bool := false

/-- The stage sequence `run_render_pipeline` attempts, in order: Blender
rendering is always first — there is no validation of the frame range (or of
anything else) before it is launched; denoising runs iff rendered frames are
found on disk, upscale/interpolation iff enabled, encoding last. -/
def plannedSteps (s : PipelineSettings) (renderedFilesExist : Bool) :
    List PipelineStep :=
  [PipelineStep.rendering]
    ++ (if renderedFilesExist then [PipelineStep.denoising] else [])
    ++ (if s.enableUpscale then [PipelineStep.upscaling] else [])
    ++ (if s.enableInterpolation then [PipelineStep.interpolating] else [])
    ++ [PipelineStep.encoding]

/-- Execute planned steps in order; a failing step raises, which the
surrounding `try`/`except` turns into the `error` status, skipping the rest.
Returns the steps actually started and whether the pipeline completed. -/
def execSteps (fails : PipelineStep → Bool) : List PipelineStep →
    List PipelineStep × Bool
  | [] => ([], true)
  | s :: rest =>
    if fails s then ([s], false)
    else
      let r := execSteps fails rest
      (s :: r.1, r.2)

/-- `run_render_pipeline`: the stages it starts and whether it reaches the
`complete` status.  `fails` abstracts each external tool invocation's
success. -/
def run_render_pipeline (s : PipelineSettings) (renderedFilesExist : Bool)
    (fails : PipelineStep → Bool) : List PipelineStep × Bool :=
  execSteps fails (plannedSteps s renderedFilesExist)

/-- The frame-range portion of `SettingsManager.validate_settings`: an error
entry for `frame_start < 1` and one for `frame_end < frame_start`.  (This
validator exists but is not called from any pipeline entry point.) -/
def validate_frame_range (frame_start frame_end : ℤ) : List (String × String) :=
  (if frame_start < 1 then
    [("frame_start", "フレーム開始は1以上である必要があります")] else [])
  ++ (if frame_end < frame_start then
    [("frame_end", "フレーム終了は開始フレーム以上である必要があります")] else [])

/-! ### Estimation mode (`BlenderRenderEngine.estimate_render_time`) -/

/-- The settings `estimate_render_time` derives from the requested settings:
same start frame, `frame_end := frame_start` (exactly one frame) and
`samples := min(samples, 32)`. -/
structure EstimateSettings where
  frame_start : ℤ
  frame_end : ℤ
  samples : ℕ

/-- `test_settings` as built by `estimate_render_time`. -/
def estimate_test_settings (s : EstimateSettings) : EstimateSettings :=
  { frame_start := s.frame_start
    frame_end := s.frame_start
    samples := min s.samples 32 }

/-- The extrapolation in `estimate_render_time`: `test_time * sample_ratio`
per frame, times `frame_end - frame_start + 1` frames, with
`sample_ratio = samples / test_samples`. -/
def estimate_render_time (s : EstimateSettings) (testTime : ℚ) : ℚ :=
  let sample_ratio : ℚ := (s.samples : ℚ) / ((estimate_test_settings s).samples : ℚ)
  let frame_count : ℤ := s.frame_end - s.frame_start + 1
  (testTime * sample_ratio) * (frame_count : ℚ)

/-! ## Helper lemmas -/

theorem logUpdate_framesRendered (st : MonState) (line : String) :
    (logUpdate st line).framesRendered = st.framesRendered := by
  unfold logUpdate
  split
  · rfl
  · split <;> rfl

theorem logUpdate_lastFrame (st : MonState) (line : String) :
    (logUpdate st line).lastFrame = st.lastFrame := by
  unfold logUpdate
  split
  · rfl
  · split <;> rfl

theorem logUpdate_emitted (st : MonState) (line : String) :
    (logUpdate st line).emitted = st.emitted := by
  unfold logUpdate
  split
  · rfl
  · split <;> rfl

theorem logUpdate_errors (st : MonState) (line : String) :
    (logUpdate st line).errors
      = st.errors ++ (if isErrorLine line then [line] else []) := by
  unfold logUpdate
  split
  · simp_all
  · split <;> simp_all

theorem logUpdate_warnings (st : MonState) (line : String) :
    (logUpdate st line).warnings
      = st.warnings
        ++ (if !isErrorLine line && isWarningLine line then [line] else []) := by
  unfold logUpdate
  split
  · simp_all
  · split <;> simp_all

theorem frameUpdateOrig_mono (total : ℤ) (st : MonState) (line : String) :
    st.framesRendered ≤ (frameUpdateOrig total st line).framesRendered := by
  unfold frameUpdateOrig
  split
  · split
    · exact le_max_left _ _
    · exact le_refl _
  · exact le_refl _

theorem stepOrig_mono (total : ℤ) (st : MonState) (line : String) :
    st.framesRendered ≤ (stepOrig total st line).framesRendered := by
  unfold stepOrig
  rw [logUpdate_framesRendered]
  exact frameUpdateOrig_mono total st line

theorem frameUpdateFixed_inv (total : ℤ) (st : MonState) (line : String)
    (h : st.framesRendered = (st.lastFrame : ℤ)) :
    (frameUpdateFixed total st line).framesRendered
      = ((frameUpdateFixed total st line).lastFrame : ℤ) := by
  unfold frameUpdateFixed
  split
  · split
    · simp
    · exact h
  · exact h

theorem frameUpdateFixed_mono (total : ℤ) (st : MonState) (line : String)
    (h : st.framesRendered = (st.lastFrame : ℤ)) :
    st.framesRendered ≤ (frameUpdateFixed total st line).framesRendered := by
  unfold frameUpdateFixed
  split
  · rename_i f _
    split
    · rename_i hlt
      simp only [h]
      omega
    · exact le_refl _
  · exact le_refl _

theorem stepFixed_inv (total : ℤ) (st : MonState) (line : String)
    (h : st.framesRendered = (st.lastFrame : ℤ)) :
    (stepFixed total st line).framesRendered
      = ((stepFixed total st line).lastFrame : ℤ) := by
  unfold stepFixed
  rw [logUpdate_framesRendered, logUpdate_lastFrame]
  exact frameUpdateFixed_inv total st line h

theorem stepFixed_mono (total : ℤ) (st : MonState) (line : String)
    (h : st.framesRendered = (st.lastFrame : ℤ)) :
    st.framesRendered ≤ (stepFixed total st line).framesRendered := by
  unfold stepFixed
  rw [logUpdate_framesRendered]
  exact frameUpdateFixed_mono total st line h

theorem frameUpdateOrig_errors (total : ℤ) (st : MonState) (line : String) :
    (frameUpdateOrig total st line).errors = st.errors := by
  unfold frameUpdateOrig
  split
  · split <;> rfl
  · rfl

theorem frameUpdateOrig_warnings (total : ℤ) (st : MonState) (line : String) :
    (frameUpdateOrig total st line).warnings = st.warnings := by
  unfold frameUpdateOrig
  split
  · split <;> rfl
  · rfl

theorem frameUpdateFixed_errors (total : ℤ) (st : MonState) (line : String) :
    (frameUpdateFixed total st line).errors = st.errors := by
  unfold frameUpdateFixed
  split
  · split <;> rfl
  · rfl

theorem frameUpdateFixed_warnings (total : ℤ) (st : MonState) (line : String) :
    (frameUpdateFixed total st line).warnings = st.warnings := by
  unfold frameUpdateFixed
  split
  · split <;> rfl
  · rfl

theorem pymin_le_right (a b : ℚ) : pymin a b ≤ b := by
  unfold pymin
  split
  · assumption
  · exact le_refl b

theorem frameUpdateOrig_emitted (total : ℤ) (st : MonState) (line : String) :
    (frameUpdateOrig total st line).emitted = st.emitted ∨
    (frameUpdateOrig total st line).emitted
      = st.emitted
        ++ [pymin (((frameUpdateOrig total st line).framesRendered : ℚ)
              / (total : ℚ) * 100) 99] := by
  cases h : parseFrame line with
  | none => left; simp [frameUpdateOrig, h]
  | some f =>
    by_cases hg : st.lastFrame ≤ f
    · by_cases ht : (0:ℤ) < total
      · right; simp [frameUpdateOrig, h, hg, ht]
      · left; simp [frameUpdateOrig, h, hg, ht]
    · left; simp [frameUpdateOrig, h, hg]

theorem frameUpdateFixed_emitted (total : ℤ) (st : MonState) (line : String) :
    (frameUpdateFixed total st line).emitted = st.emitted ∨
    (frameUpdateFixed total st line).emitted
      = st.emitted
        ++ [pymin (((frameUpdateFixed total st line).framesRendered : ℚ)
              / (total : ℚ) * 100) 99] := by
  cases h : parseFrame line with
  | none => left; simp [frameUpdateFixed, h]
  | some f =>
    by_cases hg : st.lastFrame < f
    · by_cases ht : (0:ℤ) < total
      · right; simp [frameUpdateFixed, h, hg, ht]
      · left; simp [frameUpdateFixed, h, hg, ht]
    · left; simp [frameUpdateFixed, h, hg]

theorem stepOrig_emitted (total : ℤ) (st : MonState) (line : String) :
    (stepOrig total st line).emitted = st.emitted ∨
    (stepOrig total st line).emitted
      = st.emitted
        ++ [pymin (((stepOrig total st line).framesRendered : ℚ)
              / (total : ℚ) * 100) 99] := by
  unfold stepOrig
  rw [logUpdate_emitted, logUpdate_framesRendered]
  exact frameUpdateOrig_emitted total st line

theorem stepFixed_emitted (total : ℤ) (st : MonState) (line : String) :
    (stepFixed total st line).emitted = st.emitted ∨
    (stepFixed total st line).emitted
      = st.emitted
        ++ [pymin (((stepFixed total st line).framesRendered : ℚ)
              / (total : ℚ) * 100) 99] := by
  unfold stepFixed
  rw [logUpdate_emitted, logUpdate_framesRendered]
  exact frameUpdateFixed_emitted total st line

/-- Every step appends at most one progress value, and an appended value has
the shape `pymin _ 99`; so a bound `≤ 99` on all emitted values is an
invariant of the monitor loop. -/
theorem foldl_emitted_all_le (g : MonState → String → MonState)
    (hg : ∀ st line, (g st line).emitted = st.emitted ∨
      ∃ x, (g st line).emitted = st.emitted ++ [pymin x 99]) :
    ∀ (lines : List String) (st : MonState),
      (st.emitted.all fun p => p ≤ 99) = true →
      ((lines.foldl g st).emitted.all fun p => p ≤ 99) = true := by
  intro lines
  induction lines with
  | nil => intro st h; exact h
  | cons a l ih =>
    intro st h
    refine ih (g st a) ?_
    rcases hg st a with heq | ⟨x, heq⟩
    · rw [heq]; exact h
    · rw [heq]
      simp only [List.all_append, List.all_cons, List.all_nil, Bool.and_true,
        Bool.and_eq_true, decide_eq_true_eq]
      exact ⟨h, pymin_le_right x 99⟩

theorem scanl_map_head {σ α β : Type} (g : σ → α → σ) (v : σ → β)
    (l : List α) (s : σ) :
    ((List.scanl g s l).map v).head? = some (v s) := by
  cases l <;> simp [List.scanl]

/-- A value non-decreasing along an invariant-preserving step function is
non-decreasing along the whole `scanl` trace. -/
theorem chain'_le_scanl_inv {σ α : Type} (g : σ → α → σ) (v : σ → ℤ)
    (I : σ → Prop) (hpres : ∀ s a, I s → I (g s a))
    (hmono : ∀ s a, I s → v s ≤ v (g s a)) :
    ∀ (l : List α) (s : σ), I s →
      List.Chain' (· ≤ ·) ((List.scanl g s l).map v) := by
  intro l
  induction l with
  | nil => intro s _; simp [List.scanl]
  | cons a l ih =>
    intro s hs
    simp only [List.scanl, List.map_cons]
    rw [List.chain'_cons']
    constructor
    · intro y hy
      rw [scanl_map_head] at hy
      cases hy
      exact hmono s a hs
    · exact ih (g s a) (hpres s a hs)

/-- Invariant of the `get_best_device` scoring loop once the best score is a
real score `s`: either no later device strictly beats `s` and the accumulator
survives, or the final winner is some later device that strictly beats `s`,
strictly beats everything before it, and is not strictly beaten by anything
after it. -/
theorem select_loop_spec :
    ∀ (l : List GpuDevice) (b : ℤ) (s : ℚ),
      (l.foldl select_step (b, some s) = (b, some s)
          ∧ ∀ d ∈ l, device_score d ≤ s)
      ∨ ∃ l₁ d l₂, l = l₁ ++ d :: l₂
          ∧ l.foldl select_step (b, some s) = (d.id, some (device_score d))
          ∧ s < device_score d
          ∧ (∀ e ∈ l₁, device_score e < device_score d)
          ∧ (∀ e ∈ l₂, device_score e ≤ device_score d) := by
  intro l
  induction l with
  | nil => intro b s; left; exact ⟨rfl, by simp⟩
  | cons a l ih =>
    intro b s
    rw [List.foldl_cons]
    by_cases hlt : s < device_score a
    · have hstep : select_step (b, some s) a = (a.id, some (device_score a)) := by
        simp [select_step, hlt]
      rw [hstep]
      rcases ih a.id (device_score a) with ⟨heq, hall⟩ | ⟨l₁, d, l₂, hl, heq, hgt, h₁, h₂⟩
      · right
        exact ⟨[], a, l, rfl, heq, hlt, by simp, hall⟩
      · right
        refine ⟨a :: l₁, d, l₂, by rw [hl, List.cons_append], heq,
          lt_trans hlt hgt, ?_, h₂⟩
        intro e he
        rcases List.mem_cons.mp he with rfl | he'
        · exact hgt
        · exact h₁ e he'
    · have hstep : select_step (b, some s) a = (b, some s) := by
        simp [select_step, hlt]
      rw [hstep]
      rcases ih b s with ⟨heq, hall⟩ | ⟨l₁, d, l₂, hl, heq, hgt, h₁, h₂⟩
      · left
        refine ⟨heq, ?_⟩
        intro e he
        rcases List.mem_cons.mp he with rfl | he'
        · exact le_of_not_lt hlt
        · exact hall e he'
      · right
        refine ⟨a :: l₁, d, l₂, by rw [hl, List.cons_append], heq, hgt, ?_, h₂⟩
        intro e he
        rcases List.mem_cons.mp he with rfl | he'
        · exact lt_of_le_of_lt (le_of_not_lt hlt) hgt
        · exact h₁ e he'

/-! ## Claim theorems -/

/-- C2: for a non-empty device list (with the detection invariant that ids
are strictly increasing along the list), `get_best_device` returns the id of
a device with the maximal total score — ties resolved in favour of the
lowest id — and for no discovered devices it returns the CPU/no-device
sentinel `-1` (the source encodes the spec's `None` as `-1`). -/
theorem get_best_device_selects_max :
    (∀ c : Bool, get_best_device c [] = -1) ∧
    ∀ devices : List GpuDevice, devices.isEmpty = false →
      devices.Pairwise (fun a b => a.id < b.id) →
      ∃ d ∈ devices, get_best_device true devices = d.id ∧
        (∀ e ∈ devices, device_score e ≤ device_score d) ∧
        (∀ e ∈ devices, device_score e = device_score d → d.id ≤ e.id) := by
  constructor
  · intro c; cases c <;> rfl
  intro devices hne hpair
  match devices, hne with
  | a :: l, _ =>
    have hbest : get_best_device true (a :: l)
        = ((a :: l).foldl select_step (0, none)).1 := by
      simp [get_best_device]
    rw [List.foldl_cons] at hbest
    have hstep : select_step ((0 : ℤ), (none : Option ℚ)) a
        = (a.id, some (device_score a)) := rfl
    rw [hstep] at hbest
    have hhead : ∀ e ∈ l, a.id < e.id := (List.pairwise_cons.mp hpair).1
    rcases select_loop_spec l a.id (device_score a) with
      ⟨heq, hall⟩ | ⟨l₁, d, l₂, hl, heq, hgt, h₁, h₂⟩
    · refine ⟨a, List.mem_cons_self a l, by rw [hbest, heq], ?_, ?_⟩
      · intro e he
        rcases List.mem_cons.mp he with rfl | he'
        · exact le_refl _
        · exact hall e he'
      · intro e he _
        rcases List.mem_cons.mp he with rfl | he'
        · exact le_refl _
        · exact le_of_lt (hhead e he')
    · have hdl : d ∈ l := by
        rw [hl]; exact List.mem_append_right l₁ (List.mem_cons_self d l₂)
      have hd₂ : ∀ e ∈ l₂, d.id < e.id := by
        have hsub : (d :: l₂).Sublist (a :: l) := by
          rw [hl]
          exact (List.sublist_append_right l₁ (d :: l₂)).cons a
        exact (List.pairwise_cons.mp (hpair.sublist hsub)).1
      refine ⟨d, List.mem_cons_of_mem a hdl, by rw [hbest, heq], ?_, ?_⟩
      · intro e he
        rcases List.mem_cons.mp he with rfl | he'
        · exact le_of_lt hgt
        · rw [hl] at he'
          rcases List.mem_append.mp he' with he₁ | he₂
          · exact le_of_lt (h₁ e he₁)
          · rcases List.mem_cons.mp he₂ with rfl | he₃
            · exact le_refl _
            · exact h₂ e he₃
      · intro e he hscore
        rcases List.mem_cons.mp he with rfl | he'
        · exact absurd hscore (ne_of_lt hgt)
        · rw [hl] at he'
          rcases List.mem_append.mp he' with he₁ | he₂
          · exact absurd hscore (ne_of_lt (h₁ e he₁))
          · rcases List.mem_cons.mp he₂ with rfl | he₃
            · exact le_refl _
            · exact le_of_lt (hd₂ e he₃)

/-- C3: for every sequence of lines fed to the progress monitor (in either
engine variant), the `frames_rendered` sequence is non-decreasing — a frame
number below the last reported one is ignored — and feeding
`"Fra:5", "Fra:3", "Fra:6"` yields the processed values `5, 5, 6` (the trace
includes the initial `0`), never dropping to reflect `3`. -/
theorem monitor_frames_nondecreasing :
    (∀ (total : ℤ) (lines : List String),
        List.Chain' (· ≤ ·) (framesTraceOrig total lines) ∧
        List.Chain' (· ≤ ·) (framesTraceFixed total lines)) ∧
    framesTraceOrig 10 ["Fra:5", "Fra:3", "Fra:6"] = [0, 5, 5, 6] ∧
    framesTraceFixed 10 ["Fra:5", "Fra:3", "Fra:6"] = [0, 5, 5, 6] := by
  refine ⟨fun total lines => ⟨?_, ?_⟩, by decide, by decide⟩
  · exact chain'_le_scanl_inv (stepOrig total) (·.framesRendered)
      (fun _ => True) (fun _ _ _ => trivial)
      (fun s a _ => stepOrig_mono total s a) lines monInit trivial
  · exact chain'_le_scanl_inv (stepFixed total) (·.framesRendered)
      (fun s => s.framesRendered = (s.lastFrame : ℤ))
      (fun s a h => stepFixed_inv total s a h)
      (fun s a h => stepFixed_mono total s a h) lines monInit rfl

/-- C6 (amended): error recording (a line containing `"ERROR"` or `"Error"`)
is independent of frame detection — a line matching a frame pattern and an
error marker yields both the frame event and the error record — but warning
recording is *not* independent of error recording: the source uses `elif`,
so a line is appended to the warning log only when it carries a warning
marker and no error marker.  Holds for both monitor variants. -/
theorem monitor_line_classification :
    (∀ (total : ℤ) (st : MonState) (line : String),
      (stepOrig total st line).errors
          = st.errors ++ (if isErrorLine line then [line] else []) ∧
      (stepOrig total st line).warnings
          = st.warnings
            ++ (if !isErrorLine line && isWarningLine line then [line] else []) ∧
      (stepFixed total st line).errors
          = st.errors ++ (if isErrorLine line then [line] else []) ∧
      (stepFixed total st line).warnings
          = st.warnings
            ++ (if !isErrorLine line && isWarningLine line then [line] else [])) ∧
    (stepOrig 10 monInit "Fra:7 ERROR in shader").framesRendered = 7 ∧
    (stepOrig 10 monInit "Fra:7 ERROR in shader").errors
        = ["Fra:7 ERROR in shader"] := by
  refine ⟨fun total st line => ⟨?_, ?_, ?_, ?_⟩, by decide, by decide⟩
  · rw [stepOrig, logUpdate_errors, frameUpdateOrig_errors]
  · rw [stepOrig, logUpdate_warnings, frameUpdateOrig_warnings]
  · rw [stepFixed, logUpdate_errors, frameUpdateFixed_errors]
  · rw [stepFixed, logUpdate_warnings, frameUpdateFixed_warnings]

/-- C6 counterexample: a line carrying both an error and a warning marker is
recorded only in the error log, not in both logs as the claim states — the
`elif` makes the warning branch unreachable for such a line. -/
theorem monitor_both_markers_only_error :
    isErrorLine "ERROR: unexpected Warning state" = true ∧
    isWarningLine "ERROR: unexpected Warning state" = true ∧
    (stepOrig 10 monInit "ERROR: unexpected Warning state").errors
        = ["ERROR: unexpected Warning state"] ∧
    (stepOrig 10 monInit "ERROR: unexpected Warning state").warnings = [] ∧
    (stepFixed 10 monInit "ERROR: unexpected Warning state").warnings = [] := by
  decide

/-- C5: while the monitor is draining the child's output, every reported
percentage on a frame event equals `frames_processed / frames_total * 100`
capped at `99` (the `pymin _ 99` shape), so all reported values are `≤ 99`,
and the executor reports `100` after the wait only when the process exited
with code 0 — in both engine variants. -/
theorem progress_capped_at_99 :
    (∀ (total : ℤ) (lines : List String),
        ((monitorOrig total lines).emitted.all fun p => p ≤ 99) = true ∧
        ((monitorFixed total lines).emitted.all fun p => p ≤ 99) = true) ∧
    (∀ (total : ℤ) (st : MonState) (line : String),
        ((stepOrig total st line).emitted = st.emitted ∨
          (stepOrig total st line).emitted
            = st.emitted
              ++ [pymin (((stepOrig total st line).framesRendered : ℚ)
                    / (total : ℚ) * 100) 99]) ∧
        ((stepFixed total st line).emitted = st.emitted ∨
          (stepFixed total st line).emitted
            = st.emitted
              ++ [pymin (((stepFixed total st line).framesRendered : ℚ)
                    / (total : ℚ) * 100) 99])) ∧
    (∀ (stats monStats : RenderStats) (blendExists : Bool) (rc : ℤ),
        (render ⟨false, stats⟩ blendExists rc monStats).finalProgress
          = if blendExists = true ∧ rc = 0 then some 100 else none) := by
  refine ⟨fun total lines => ⟨?_, ?_⟩,
    fun total st line => ⟨stepOrig_emitted total st line,
      stepFixed_emitted total st line⟩,
    fun stats monStats blendExists rc => ?_⟩
  · exact foldl_emitted_all_le (stepOrig total)
      (fun st line => (stepOrig_emitted total st line).imp id fun h => ⟨_, h⟩)
      lines monInit rfl
  · exact foldl_emitted_all_le (stepFixed total)
      (fun st line => (stepFixed_emitted total st line).imp id fun h => ⟨_, h⟩)
      lines monInit rfl
  · cases blendExists <;> by_cases h : rc = 0 <;> simp [render, h]

/-- C1 counterexample: a run whose child exits with code `0` but whose
monitor counted `0` of `10` frames is still reported as succeeded, and no
"frame count mismatch" error is appended to the stats — refuting the claim
that exit code 0 together with `frames_processed == frames_total` is
necessary for success. -/
theorem render_success_despite_frame_mismatch :
    (render ⟨false, initStats 10⟩ true 0
        ⟨0, 10, [], []⟩).result = true ∧
    (0 : ℤ) ≠ 10 ∧
    (render ⟨false, initStats 10⟩ true 0
        ⟨0, 10, [], []⟩).state.stats.errors = [] := by
  decide

/-- C1 (amended): for a launched run (engine idle, blend file present), exit
code 0 is by itself necessary and sufficient for the render result `True`;
the frame counters collected by the monitor are not consulted, and the stats
(in particular the error log) pass through the exit decision unchanged — no
mismatch error is ever appended. -/
theorem render_exit_policy (stats monStats : RenderStats) (rc : ℤ) :
    ((render ⟨false, stats⟩ true rc monStats).result = true ↔ rc = 0) ∧
    (render ⟨false, stats⟩ true rc monStats).state.stats = monStats ∧
    (render ⟨false, stats⟩ true rc monStats).processStarted = true := by
  by_cases h : rc = 0 <;> simp [render, h]

/-- C8: calling `render` while a render is already running fails immediately
(result `False`), starts no child process, leaves the engine state (including
the in-progress run's stats) unchanged, and the guard logs the
"already running" error message. -/
theorem render_reentrancy_guard (stats monStats : RenderStats) (b : Bool)
    (rc : ℤ) (blendFile : String) :
    render ⟨true, stats⟩ b rc monStats
      = { state := ⟨true, stats⟩, result := false, processStarted := false,
          finalProgress := none } ∧
    render_entry_guard true b blendFile
      = some "エラー: 既にレンダリングが実行中です" := by
  constructor
  · simp [render]
  · rfl

/-- C7 counterexample: the cancel path does run (`cancel_render` returns
`True`), but the run's terminal report is not a distinct Cancelled state — a
child terminated by cancellation (exit code `-15`, SIGTERM) produces exactly
the same `False` result as a child that crashed with exit code `1`. -/
theorem cancelled_run_reported_as_failure :
    (cancel_render true true true).returnedTrue = true ∧
    (render ⟨false, initStats 3⟩ true (-15) ⟨1, 3, [], []⟩).result = false ∧
    (render ⟨false, initStats 3⟩ true 1 ⟨1, 3, [], []⟩).result = false := by
  decide

/-- C7 (amended): with a running render and a live process, `cancel_render`
requests graceful termination, waits up to the 10-second grace period,
force-kills the child exactly when it did not exit within the grace window,
clears `is_running` and returns `True`; but no distinct Cancelled terminal
state exists — a cancelled run's render result coincides with a failed
run's. -/
theorem cancel_render_behavior :
    (∀ exitsWithinGrace : Bool,
        cancel_render true true exitsWithinGrace
          = { terminateCalled := true, graceSeconds := 10,
              killCalled := !exitsWithinGrace, returnedTrue := true,
              isRunningAfter := false }) ∧
    cancelGraceSeconds = 10 ∧
    (∀ stats monStats : RenderStats,
        (render ⟨false, stats⟩ true (-15) monStats).result
          = (render ⟨false, stats⟩ true 1 monStats).result) := by
  refine ⟨fun e => by cases e <;> rfl, rfl, fun stats monStats => ?_⟩
  norm_num [render]

/-- C4 counterexample: a configuration with `frame_end < frame_start`
(start 5, end 1) is not rejected — the pipeline still launches the Blender
render stage as its first action, refuting "fails fast … no external process
is started". -/
theorem pipeline_launches_render_with_invalid_range :
    (({ frameStart := 5, frameEnd := 1 } : PipelineSettings).frameEnd
        < ({ frameStart := 5, frameEnd := 1 } : PipelineSettings).frameStart) ∧
    (run_render_pipeline { frameStart := 5, frameEnd := 1 } true
        (fun _ => false)).1 ≠ [] ∧
    (run_render_pipeline { frameStart := 5, frameEnd := 1 } true
        (fun _ => false)).1.head? = some PipelineStep.rendering := by
  decide

/-- C4 (amended): the frame-range rule lives only in the standalone settings
validator, which accepts a configuration exactly when `1 ≤ frame_start ≤
frame_end` (so a single-frame run `frame_start = frame_end` is accepted and
`frame_end < frame_start` is flagged); `run_render_pipeline` itself performs
no validation and always launches the render stage first, for every
configuration. -/
theorem pipeline_no_frame_range_validation :
    (∀ fs fe : ℤ, validate_frame_range fs fe = [] ↔ 1 ≤ fs ∧ fs ≤ fe) ∧
    (∀ (s : PipelineSettings) (filesExist : Bool)
        (fails : PipelineStep → Bool),
        (run_render_pipeline s filesExist fails).1.head?
          = some PipelineStep.rendering) := by
  constructor
  · intro fs fe
    unfold validate_frame_range
    split_ifs <;> simp <;> omega
  · intro s filesExist fails
    unfold run_render_pipeline plannedSteps
    simp only [List.singleton_append, List.cons_append]
    simp only [execSteps]
    split <;> rfl

/-- C9: estimation renders one frame (`frame_end := frame_start` in the test
settings) at the requested sample count capped at 32, and extrapolates
`measured_time * (requested_samples / reduced_samples) * frame_count`; in
particular 10 s measured at 32 samples for a 250-frame run requested at 128
samples gives 10000 s.  (Real configurations have `samples ≥ 1`, keeping the
sample ratio well defined.) -/
theorem estimate_formula (s : EstimateSettings) (testTime : ℚ) :
    (estimate_test_settings s).frame_end
        = (estimate_test_settings s).frame_start ∧
    (estimate_test_settings s).samples = min s.samples 32 ∧
    (estimate_test_settings s).samples ≤ 32 ∧
    estimate_render_time s testTime
      = testTime * ((s.samples : ℚ) / ((min s.samples 32 : ℕ) : ℚ))
          * ((s.frame_end - s.frame_start + 1 : ℤ) : ℚ) ∧
    estimate_render_time ⟨1, 250, 128⟩ 10 = 10000 := by
  refine ⟨rfl, rfl, min_le_right _ _, rfl, ?_⟩
  norm_num [estimate_render_time, estimate_test_settings]

/-- C2 witness: on the spec's two example devices the theorem instantiates —
the selected device carries the maximal score among the two. -/
theorem get_best_device_selects_max_witness :
    ∃ d ∈ [devA, devB], get_best_device true [devA, devB] = d.id ∧
      (∀ e ∈ [devA, devB], device_score e ≤ device_score d) ∧
      (∀ e ∈ [devA, devB], device_score e = device_score d → d.id ≤ e.id) :=
  get_best_device_selects_max.2 [devA, devB] (by decide) (by decide)

/-- C10 counterexample: with CUDA unavailable, a `base_batch_size` of `0` is
returned unchanged — the result is not at least 1, refuting the universal
"at least 1" clause of the claim. -/
theorem batch_size_not_clamped_without_cuda :
    get_optimal_batch_size false [] 0 (8/10) 0 1 none = some 0 ∧
    ¬(1 ≤ (0 : ℤ)) := by
  decide

/-- C10 (amended): when CUDA is unavailable, or the target device index is at
least the device count, `get_optimal_batch_size` returns `base_batch_size`
unchanged (even when that is below 1); when a CUDA device is selected (target
index in range), it returns
`max(1, min(base_batch_size, floor(memory_free * memory_threshold /
memory_per_item)))`, which is at least 1. -/
theorem batch_size_spec :
    (∀ (devices : List GpuDevice) (cur : ℤ) (thr : ℚ) (base : ℤ) (per : ℚ)
        (did : Option ℤ),
      get_optimal_batch_size false devices cur thr base per did = some base) ∧
    (∀ (devices : List GpuDevice) (cur : ℤ) (thr : ℚ) (base : ℤ) (per : ℚ)
        (did : Option ℤ),
      (devices.length : ℤ) ≤ did.getD cur →
      get_optimal_batch_size true devices cur thr base per did = some base) ∧
    (∀ (devices : List GpuDevice) (cur : ℤ) (thr : ℚ) (base : ℤ) (per : ℚ)
        (did : Option ℤ) (i : ℕ) (d : GpuDevice),
      did.getD cur = (i : ℤ) → devices.get? i = some d →
      get_optimal_batch_size true devices cur thr base per did
        = some (max 1 (min base ⌊d.memory_free * thr / per⌋)) ∧
      1 ≤ max 1 (min base ⌊d.memory_free * thr / per⌋)) := by
  refine ⟨fun devices cur thr base per did => rfl,
    fun devices cur thr base per did hle => ?_,
    fun devices cur thr base per did i d hdid hget => ?_⟩
  · simp [get_optimal_batch_size, hle]
  · obtain ⟨hlen, -⟩ := List.get?_eq_some.mp hget
    have hnle : ¬((devices.length : ℤ) ≤ did.getD cur) := by
      rw [hdid]
      exact_mod_cast not_le.mpr hlen
    have hget' : devices[i]? = some d := by
      rw [← List.get?_eq_getElem?]
      exact hget
    have hpy : pyGet devices (did.getD cur) = some d := by
      rw [hdid]
      simp [pyGet, hget']
    refine ⟨?_, le_max_left _ _⟩
    simp [get_optimal_batch_size, hnle, hpy]

/-- C10 witness: a concrete in-range selection on example device A, showing
the clamped formula and the ≥ 1 bound. -/
theorem batch_size_spec_witness :
    get_optimal_batch_size true [devA] 0 (8/10) 16 9 none
      = some (max 1 (min 16 ⌊devA.memory_free * (8/10) / 9⌋)) ∧
    1 ≤ max 1 (min 16 ⌊devA.memory_free * (8/10) / 9⌋) :=
  batch_size_spec.2.2 [devA] 0 (8/10) 16 9 none 0 devA rfl rfl

end BlenderRender
